import Mathlib

/-!
Verification of the AI-resume-generator core (`src/app.py`) against its
natural-language specification.

Strings are modelled as `List Char` (Python strings are sequences of Unicode
code points).  Python's Unicode character-database predicates (`str.isalpha`,
`str.isdigit`, `str.isspace`, `str.isupper` casing data, and the `re` classes
`\d`, `\s`) are not part of the repository's source, so every definition that
consults them is parameterised by a `CharClass` record of those predicates;
theorems quantified over an arbitrary `CharClass` hold for Python's actual
tables in particular.  A small concrete instance `pyClass`, faithful to
Python on the characters it is evaluated at, is used for concrete runs.
-/

/-- Record of the character-classification predicates the Python runtime
supplies: `isAlpha`/`isDigit`/`isSpace` model `str.isalpha`/`str.isdigit`/
`str.isspace`; `isUpper`/`isCased` model the casing data behind
`str.isupper`; `reDigit`/`reSpace` model the regex classes `\d`/`\s`. -/
structure CharClass where
  isAlpha : Char → Bool
  isDigit : Char → Bool
  isSpace : Char → Bool
  isUpper : Char → Bool
  isCased : Char → Bool
  reDigit : Char → Bool
  reSpace : Char → Bool

/-- Concrete finite-domain model of Python's Unicode predicates, faithful on
all ASCII characters and on the specific non-ASCII characters concrete
statements below evaluate it at: U+00E9 (é, a lowercase cased letter),
U+4E2D (中, an uncased letter), U+0660 (an Arabic-Indic digit), and the
whitespace characters U+0085 (NEL), U+00A0 (NBSP) and U+2003 (EM SPACE).
`reDigit`/`reSpace` model `\d`/`\s` restricted to ASCII inputs. -/
def pyClass : CharClass where
  isAlpha c := decide ((65 ≤ c.toNat ∧ c.toNat ≤ 90) ∨ (97 ≤ c.toNat ∧ c.toNat ≤ 122) ∨
    c.toNat = 0xe9 ∨ c.toNat = 0x4e2d)
  isDigit c := decide ((48 ≤ c.toNat ∧ c.toNat ≤ 57) ∨ c.toNat = 0x660)
  isSpace c := decide (c.toNat = 32 ∨ (9 ≤ c.toNat ∧ c.toNat ≤ 13) ∨
    c.toNat = 0x85 ∨ c.toNat = 0xa0 ∨ c.toNat = 0x2003)
  isUpper c := decide (65 ≤ c.toNat ∧ c.toNat ≤ 90)
  isCased c := decide ((65 ≤ c.toNat ∧ c.toNat ≤ 90) ∨ (97 ≤ c.toNat ∧ c.toNat ≤ 122) ∨
    c.toNat = 0xe9)
  reDigit c := decide (48 ≤ c.toNat ∧ c.toNat ≤ 57)
  reSpace c := decide (c.toNat = 32 ∨ (9 ≤ c.toNat ∧ c.toNat ≤ 13))

/-- Substitution table of `clean_text_for_pdf` (src/app.py lines 472-499), in
Python dict insertion order.  The source dict literal repeats the keys
U+2022, U+25CF and U+25CB (once as escape, once as literal character) with
identical values; Python dict semantics collapse the duplicates, so they
appear once here. -/
def replacements : List (Char × List Char) :=
  [ (Char.ofNat 0x2022, ['*', ' ']),
    (Char.ofNat 0x2013, ['-']),
    (Char.ofNat 0x2014, ['-']),
    (Char.ofNat 0x2019, [Char.ofNat 39]),
    (Char.ofNat 0x201c, ['"']),
    (Char.ofNat 0x201d, ['"']),
    (Char.ofNat 0x2026, ['.', '.', '.']),
    (Char.ofNat 0xa0, [' ']),
    (Char.ofNat 0x2212, ['-']),
    (Char.ofNat 0xb7, ['*', ' ']),
    (Char.ofNat 0x25cf, ['*', ' ']),
    (Char.ofNat 0x25cb, ['*', ' ']),
    (Char.ofNat 0x25a0, ['*', ' ']),
    (Char.ofNat 0x25a1, ['*', ' ']),
    (Char.ofNat 0x2192, ['-', '>']),
    (Char.ofNat 0x2190, ['<', '-']),
    (Char.ofNat 0xae, ['(', 'R', ')']),
    (Char.ofNat 0xa9, ['(', 'C', ')']),
    (Char.ofNat 0x2122, ['(', 'T', 'M', ')']),
    (Char.ofNat 0x2500, ['-']),
    (Char.ofNat 0x2502, ['|']),
    (Char.ofNat 0x2605, ['*']),
    (Char.ofNat 0x2606, ['*']) ]

/-- Python `text.replace(k, v)` for a single-character pattern `k`: every
occurrence of `k` is replaced by `v`. -/
def replaceChar (k : Char) (v : List Char) (s : List Char) : List Char :=
  s.flatMap fun c => if c = k then v else [c]

/-- Sequential application of the substitution table, in order, exactly as
the `for unicode_char, replacement in replacements.items()` loop does. -/
def applyReplacements : List (Char × List Char) → List Char → List Char
  | [], s => s
  | kv :: rest, s => applyReplacements rest (replaceChar kv.1 kv.2 s)

/-- Per-character fallback pass of `clean_text_for_pdf` (src/app.py lines
506-525): ASCII passes through; a non-ASCII letter or digit is kept when its
code point is below 256 and becomes a question mark otherwise; non-ASCII
whitespace becomes a single space; any other character is kept when below
256 and dropped otherwise. -/
def fallbackChar (κ : CharClass) (c : Char) : List Char :=
  if c.toNat < 128 then [c]
  else if κ.isAlpha c then (if c.toNat < 256 then [c] else ['?'])
  else if κ.isDigit c then (if c.toNat < 256 then [c] else ['?'])
  else if κ.isSpace c then [' ']
  else if c.toNat < 256 then [c] else []

/-- `clean_text_for_pdf` (src/app.py lines 469-527): the substitution table
is applied first, then the per-character fallback pass scans what remains. -/
def clean_text_for_pdf (κ : CharClass) (s : List Char) : List Char :=
  (applyReplacements replacements s).flatMap (fallbackChar κ)

/-- `startsWithL hay pat` is Python's `hay.startswith(pat)` on code-point
lists. -/
def startsWithL : List Char → List Char → Bool
  | _, [] => true
  | [], _ :: _ => false
  | a :: as_, b :: bs => a = b && startsWithL as_ bs

/-- `containsL hay pat` is Python's substring test `pat in hay`. -/
def containsL : List Char → List Char → Bool
  | [], pat => pat.isEmpty
  | c :: t, pat => startsWithL (c :: t) pat || containsL t pat

/-- Python `str.strip()` with no argument: remove leading and trailing
whitespace (as classified by the runtime's `isspace`). -/
def pyStrip (κ : CharClass) (l : List Char) : List Char :=
  ((l.dropWhile κ.isSpace).reverse.dropWhile κ.isSpace).reverse

/-- Python `str.isupper()`: at least one cased character, and every cased
character is uppercase. -/
def pyIsUpper (κ : CharClass) (l : List Char) : Bool :=
  l.any κ.isCased && l.all fun c => !κ.isCased c || κ.isUpper c

/-- Python `s.split(sep)` for a single-character separator: splitting the
empty string yields `[""]`. -/
def splitOnChar (sep : Char) : List Char → List (List Char)
  | [] => [[]]
  | c :: t =>
    match splitOnChar sep t with
    | [] => if c = sep then [[], []] else [[c]]
    | h :: rest => if c = sep then [] :: h :: rest else (c :: h) :: rest

/-- One rendered element of the PDF body produced by the line loop of
`export_as_pdf` (src/app.py lines 414-452): a blank-line spacer (`pdf.ln(3)`),
a section header (rendered with an underline rule by `section_header`), a
bullet (rendered with a normalized `*` glyph and the marker stripped), or a
plain wrapped paragraph. -/
inductive PdfItem where
  | blank : PdfItem
  | header (title : List Char) : PdfItem
  | bullet (content : List Char) : PdfItem
  | para (content : List Char) : PdfItem
deriving DecidableEq

/-- Per-line classification of `export_as_pdf` (src/app.py lines 437-452),
applied to an already-stripped non-empty line: an all-caps line shorter than
50 characters that does not start with `-` or `*` becomes a section header;
otherwise a line starting with `"- "`, `"* "` or `"+ "` becomes a bullet
whose content is `line[2:].strip()` (or the line itself when it has length
at most 2); everything else is a paragraph. -/
def classifyLine (κ : CharClass) (line : List Char) : PdfItem :=
  if pyIsUpper κ line && decide (line.length < 50) && !startsWithL line ['-'] &&
      !startsWithL line ['*'] then
    .header line
  else if startsWithL line ['-', ' '] || startsWithL line ['*', ' '] ||
      startsWithL line ['+', ' '] then
    .bullet (if 2 < line.length then pyStrip κ (line.drop 2) else line)
  else .para line

/-- Condition under which a raw line ends the header-skip mode of
`export_as_pdf` (src/app.py lines 421-431): after stripping it is non-empty,
contains none of the skip strings (sanitized upper-cased name, phone, email)
as a substring, is `isupper()`, and is shorter than 50 characters. -/
def exitsSkip (κ : CharClass) (info : List (List Char)) (raw : List Char) : Bool :=
  let line := pyStrip κ raw
  !line.isEmpty && !(info.any fun i => containsL line i) &&
    (pyIsUpper κ line && decide (line.length < 50))

/-- Line loop of `export_as_pdf` (src/app.py lines 409-452).  `info` is the
list `[clean_name, clean_phone, clean_email]`; the boolean is the
`skip_header` flag, initially `true`.  Blank lines always emit a spacer;
while skipping, a line containing any skip string is dropped, a line that is
all-caps and shorter than 50 characters clears the flag and is processed
normally, and any other line is dropped. -/
def processLines (κ : CharClass) (info : List (List Char)) :
    Bool → List (List Char) → List PdfItem
  | _, [] => []
  | skip, raw :: ls =>
    let line := pyStrip κ raw
    if line.isEmpty then .blank :: processLines κ info skip ls
    else if skip then
      if info.any fun i => containsL line i then processLines κ info true ls
      else if pyIsUpper κ line && decide (line.length < 50) then
        classifyLine κ line :: processLines κ info false ls
      else processLines κ info true ls
    else classifyLine κ line :: processLines κ info false ls

/-- The user-information record collected by the form (src/app.py lines
702-714).  The seven required fields are always present in the dict the form
builds (possibly as empty strings, which the validation treats exactly like
absent keys via `get(field, '')`); the optional fields are read with
`dict.get`, so they are modelled as `Option String` with `none` for an
absent key. -/
structure UserData where
  name : String
  role : String
  phone : String
  email : String
  location : Option String
  linkedin : Option String
  github : Option String
  skills : String
  experience : String
  education : String
  certifications : Option String
deriving DecidableEq

/-- The `base_info` block of `create_resume_prompt` (src/app.py lines
267-277): `label: value` lines for name, role, phone, email, location
(defaulting to "Not specified"), skills, experience, education and
certifications (defaulting to "None listed"), surrounded by newlines. -/
def base_info (ud : UserData) : List Char :=
  '\n' :: ("Name: ".toList ++ (ud.name.toList
    ++ '\n' :: ("Role: ".toList ++ (ud.role.toList
    ++ '\n' :: ("Phone: ".toList ++ (ud.phone.toList
    ++ '\n' :: ("Email: ".toList ++ (ud.email.toList
    ++ '\n' :: ("Location: ".toList ++ ((ud.location.getD "Not specified").toList
    ++ '\n' :: ("Skills: ".toList ++ (ud.skills.toList
    ++ '\n' :: ("Experience: ".toList ++ (ud.experience.toList
    ++ '\n' :: ("Education: ".toList ++ (ud.education.toList
    ++ '\n' :: ("Certifications: ".toList ++ ((ud.certifications.getD "None listed").toList
    ++ ['\n']))))))))))))))))))

def professionalHead : List Char :=
  "Create a professional, ATS-friendly resume with clean formatting. Use the following information:\n\n".toList

def professionalTail : List Char :=
  "\n\nFormat requirements:\n- Use ALL CAPS for section headers\n- Use simple dashes (-) for bullet points\n- Keep formatting clean and scannable\n- Include sections: CONTACT INFO, EDUCATION, TECHNICAL SKILLS, EXPERIENCE, CERTIFICATIONS\n- Make it concise but comprehensive\n- Use action verbs and quantify achievements where possible\n\nGenerate a complete, professional resume.".toList

def technicalHead : List Char :=
  "Create a technical resume optimized for software engineering roles. Use the following information:\n\n".toList

def technicalTail : List Char :=
  "\n\nFormat requirements:\n- Emphasize technical skills and projects\n- Use ALL CAPS for section headers\n- Include sections: CONTACT INFO, TECHNICAL SKILLS, EXPERIENCE, EDUCATION, CERTIFICATIONS\n- Highlight programming languages, frameworks, and tools\n- Focus on technical achievements and impact\n- Use metrics and numbers where possible\n\nGenerate a complete, technical resume.".toList

def creativeHead : List Char :=
  "Create a creative but professional resume with engaging language. Use the following information:\n\n".toList

def creativeTail : List Char :=
  "\n\nFormat requirements:\n- Use dynamic action words\n- Show personality while maintaining professionalism\n- Use ALL CAPS for section headers\n- Include sections: CONTACT INFO, SUMMARY, EXPERIENCE, SKILLS, EDUCATION, CERTIFICATIONS\n- Include a brief professional summary\n- Highlight unique achievements and value propositions\n\nGenerate a complete, creative resume.".toList

def academicHead : List Char :=
  "Create an academic-style resume with detailed education focus. Use the following information:\n\n".toList

def academicTail : List Char :=
  "\n\nFormat requirements:\n- Emphasize education, research, and academic achievements\n- Use ALL CAPS for section headers\n- Include sections: CONTACT INFO, EDUCATION, RESEARCH EXPERIENCE, SKILLS, CERTIFICATIONS\n- Include GPA if mentioned in education\n- Focus on academic contributions and scholarly work\n\nGenerate a complete, academic resume.".toList

/-- `create_resume_prompt` (src/app.py lines 264-336): a style-specific
opening sentence, the `base_info` block, and a style-specific instruction
block; the `else` branch of the source's `elif` chain mapping any other
style string to the academic template. -/
def create_resume_prompt (ud : UserData) (template_style : String) : List Char :=
  if template_style = "professional" then professionalHead ++ base_info ud ++ professionalTail
  else if template_style = "technical" then technicalHead ++ base_info ud ++ technicalTail
  else if template_style = "creative" then creativeHead ++ base_info ud ++ creativeTail
  else academicHead ++ base_info ud ++ academicTail

def isAsciiLetter (c : Char) : Bool :=
  decide ((65 ≤ c.toNat ∧ c.toNat ≤ 90) ∨ (97 ≤ c.toNat ∧ c.toNat ≤ 122))

def isAsciiDigit (c : Char) : Bool := decide (48 ≤ c.toNat ∧ c.toNat ≤ 57)

def isEmailLocalChar (c : Char) : Bool :=
  isAsciiLetter c || isAsciiDigit c || c = '.' || c = '_' || c = '%' || c = '+' || c = '-'

def isEmailDomainChar (c : Char) : Bool :=
  isAsciiLetter c || isAsciiDigit c || c = '.' || c = '-'

/-- Language of the domain part of the email regex,
`[a-zA-Z0-9.-]+\.[a-zA-Z]{2,}` anchored at the end: some dot splits the
domain into a non-empty prefix of domain characters and a suffix of at
least two ASCII letters. -/
def emailDomainOk (dom : List Char) : Bool :=
  (List.range dom.length).any fun i =>
    decide (0 < i) && decide (dom.getD i ' ' = '.') && (dom.take i).all isEmailDomainChar &&
      decide (i + 3 ≤ dom.length) && (dom.drop (i + 1)).all isAsciiLetter

/-- Language of `^[a-zA-Z0-9._%+-]+@[a-zA-Z0-9.-]+\.[a-zA-Z]{2,}` (the email
regex of `validate_email`, src/app.py line 128, without the trailing `$`):
since `@` occurs in no character class, the string must contain exactly one
`@` splitting it into a non-empty local part and a matching domain. -/
def emailCore (l : List Char) : Bool :=
  match splitOnChar '@' l with
  | [loc, dom] => !loc.isEmpty && loc.all isEmailLocalChar && emailDomainOk dom
  | _ => false

/-- Python's `$` anchor at the end of a pattern under `re.match`: the whole
string matches the core pattern, or everything before a single final
newline does. -/
def matchDollar (core : List Char → Bool) (l : List Char) : Bool :=
  core l || (decide (l.getLast? = some '\n') && core l.dropLast)

/-- `validate_email` (src/app.py lines 127-129). -/
def validate_email (s : String) : Bool := matchDollar emailCore s.toList

/-- The argument `validate_phone` feeds to its regex: the phone string with
all spaces, hyphens and parentheses removed (src/app.py line 134). -/
def stripPhonePunct (s : String) : List Char :=
  s.toList.filter fun c => !(c = ' ' || c = '-' || c = '(' || c = ')')

def phoneTailChar (κ : CharClass) (c : Char) : Bool :=
  κ.reDigit c || κ.reSpace c || c = '-' || c = '(' || c = ')'

/-- Language of `^[\+]?[1-9][\d\s\-\(\)]{7,15}` (the phone regex of
`validate_phone`, src/app.py line 133, without the trailing `$`): an
optional plus, a nonzero ASCII digit, then 7 to 15 characters drawn from
digits, whitespace, hyphens and parentheses, consuming the whole input. -/
def phoneCore (κ : CharClass) (l : List Char) : Bool :=
  let l1 := if startsWithL l ['+'] then l.drop 1 else l
  match l1 with
  | [] => false
  | c :: rest =>
    decide (49 ≤ c.toNat ∧ c.toNat ≤ 57) && decide (7 ≤ rest.length ∧ rest.length ≤ 15) &&
      rest.all (phoneTailChar κ)

/-- `validate_phone` (src/app.py lines 131-134). -/
def validate_phone (κ : CharClass) (s : String) : Bool :=
  matchDollar (phoneCore κ) (stripPhonePunct s)

def isProfileNameChar (c : Char) : Bool := isAsciiLetter c || isAsciiDigit c || c = '-'

/-- Language of `[a-zA-Z0-9-]+/?` anchored at the end: a non-empty run of
profile-name characters, optionally followed by one final slash. -/
def profileTailOk (l : List Char) : Bool :=
  if l.getLast? = some '/' then !l.dropLast.isEmpty && l.dropLast.all isProfileNameChar
  else !l.isEmpty && l.all isProfileNameChar

/-- The optional `(https?://)?(www\.)?` prefixes shared by the linkedin and
github regexes; the alternatives are mutually exclusive with what follows,
so greedy consumption is exact. -/
def dropUrlPrefixes (l : List Char) : List Char :=
  let l1 := if startsWithL l ("https://".toList) then l.drop 8
    else if startsWithL l ("http://".toList) then l.drop 7 else l
  if startsWithL l1 ("www.".toList) then l1.drop 4 else l1

def linkedinCore (l : List Char) : Bool :=
  let l2 := dropUrlPrefixes l
  startsWithL l2 ("linkedin.com/in/".toList) && profileTailOk (l2.drop 16)

/-- `validate_linkedin` (src/app.py lines 136-140): the empty string is
accepted outright; otherwise the profile-URL regex must match. -/
def validate_linkedin (s : String) : Bool := s.isEmpty || matchDollar linkedinCore s.toList

def githubCore (l : List Char) : Bool :=
  let l2 := dropUrlPrefixes l
  startsWithL l2 ("github.com/".toList) && profileTailOk (l2.drop 11)

/-- `validate_github` (src/app.py lines 142-146). -/
def validate_github (s : String) : Bool := s.isEmpty || matchDollar githubCore s.toList

/-- The distinct `ResumeGeneratorError` raises of the pipeline (src/app.py),
one constructor per distinct message site. -/
inductive AppError where
  | missingFields (fields : List String)
  | invalidEmail
  | invalidPhone
  | invalidApiKeyFormat
  | apiKeyAuthFailed
  | apiKeyAccessDenied
  | iamTokenError (status : Nat)
  | modelNotAvailable
  | accessDenied
  | rateLimitExceeded
  | apiError (status : Nat)
  | noResponseFromModel
  | emptyGenText
deriving DecidableEq

/-- One entry of the `results` array of a generation response;
`generated_text` is read with `.get("generated_text", "")`. -/
structure GenResult where
  generated_text : Option String
deriving DecidableEq

/-- A generation HTTP response: its status code and its decoded `results`
field (`none` when the key is absent). -/
structure GenResponse where
  status : Nat
  results : Option (List GenResult)
deriving DecidableEq

/-- Status classification of the IAM credential exchange in `get_iam_token`
(src/app.py lines 176-186), as a function of the response status. -/
def get_iam_token (status : Nat) (token : String) : Except AppError String :=
  if status ≠ 200 then
    if status = 400 then .error .invalidApiKeyFormat
    else if status = 401 then .error .apiKeyAuthFailed
    else if status = 403 then .error .apiKeyAccessDenied
    else .error (.iamTokenError status)
  else .ok token

/-- Classification of the generation call's response in `_generate`
(src/app.py lines 243-260): 404, 403 and 429 are special-cased, any other
non-200 is a generic API error; on 200 a missing or empty `results` array
is "No response from model", and a `generated_text` that strips to empty is
"Empty response"; otherwise the stripped text is returned. -/
def run_generation (κ : CharClass) (resp : GenResponse) : Except AppError (List Char) :=
  if resp.status = 404 then .error .modelNotAvailable
  else if resp.status = 403 then .error .accessDenied
  else if resp.status = 429 then .error .rateLimitExceeded
  else if resp.status ≠ 200 then .error (.apiError resp.status)
  else match resp.results with
    | none => .error .noResponseFromModel
    | some [] => .error .noResponseFromModel
    | some (r :: _) =>
      let t := pyStrip κ ((r.generated_text.getD "").toList)
      if t.isEmpty then .error .emptyGenText else .ok t

/-- The two sequential round trips of the generation client: the credential
exchange is classified first, and only on its success is the generation
response examined at all (src/app.py lines 215, 232-262). -/
def call_model (κ : CharClass) (iamStatus : Nat) (token : String) (resp : GenResponse) :
    Except AppError (List Char) :=
  match get_iam_token iamStatus token with
  | .error e => .error e
  | .ok _ => run_generation κ resp

/-- The `required_fields` list of `generate_resume` (src/app.py line 195),
in source order, paired with the field accessors. -/
def requiredFields : List (String × (UserData → String)) :=
  [("name", UserData.name), ("role", UserData.role), ("skills", UserData.skills),
   ("experience", UserData.experience), ("education", UserData.education),
   ("phone", UserData.phone), ("email", UserData.email)]

/-- The `missing_fields` comprehension of `generate_resume` (src/app.py line
196): required fields whose value strips to the empty string. -/
def missing_fields (κ : CharClass) (ud : UserData) : List String :=
  (requiredFields.filter fun p => (pyStrip κ (p.2 ud).toList).isEmpty).map Prod.fst

/-- The validation prefix of `generate_resume` (src/app.py lines 194-206):
missing required fields are reported first, then the email format, then the
phone format; `none` means validation passed. -/
def preflight (κ : CharClass) (ud : UserData) : Option AppError :=
  if !(missing_fields κ ud).isEmpty then some (.missingFields (missing_fields κ ud))
  else if !validate_email ud.email then some .invalidEmail
  else if !validate_phone κ ud.phone then some .invalidPhone
  else none

/-- `generate_resume` (src/app.py lines 191-262) up to the result of the
network exchange: validation happens first and short-circuits every later
step (prompt construction and both network round trips, here summarised by
their classified statuses and decoded response). -/
def generate_resume (κ : CharClass) (ud : UserData) (template_style : String)
    (iamStatus : Nat) (token : String) (resp : GenResponse) : Except AppError (List Char) :=
  match preflight κ ud with
  | some e => .error e
  | none =>
    let _prompt := create_resume_prompt ud template_style
    call_model κ iamStatus token resp

/-- The spec's failure taxonomy (§4.3, §7). -/
inductive Taxonomy where
  | validationError
  | malformedKey
  | authenticationFailure
  | authorizationFailure
  | rateLimited
  | modelUnavailable
  | emptyResponse
  | unexpectedServerError
  | success
deriving DecidableEq

/-- Map from the source's distinct error sites to the spec's taxonomy:
"Invalid API key format" is the malformed-key case, "API key authentication
failed" the authentication failure, the two access-denied messages the
authorization failure, both generic `[status]` messages the unexpected
server error, and both "No response from model" and "Empty response" the
spec's `EmptyResponse`. -/
def toTaxonomy : Except AppError (List Char) → Taxonomy
  | .ok _ => .success
  | .error (.missingFields _) => .validationError
  | .error .invalidEmail => .validationError
  | .error .invalidPhone => .validationError
  | .error .invalidApiKeyFormat => .malformedKey
  | .error .apiKeyAuthFailed => .authenticationFailure
  | .error .apiKeyAccessDenied => .authorizationFailure
  | .error (.iamTokenError _) => .unexpectedServerError
  | .error .modelNotAvailable => .modelUnavailable
  | .error .accessDenied => .authorizationFailure
  | .error .rateLimitExceeded => .rateLimited
  | .error (.apiError _) => .unexpectedServerError
  | .error .noResponseFromModel => .emptyResponse
  | .error .emptyGenText => .emptyResponse

/-- Modelled from the spec: the status-to-taxonomy classification exactly as
§4.3 and §8 word it (credential exchange classified first: 400 malformed
key, 401 authentication, 403 authorization, other non-200 generic server
error; then the generation call: 404 model unavailable, 403 authorization,
429 rate limited, other non-200 generic; a 200 with missing or empty
results, or text stripping to empty, is an empty response).  Reference side
of the refinement theorem for C5; this part classifies the generation
response. -/
def specGenClassify (κ : CharClass) (resp : GenResponse) : Taxonomy :=
  if resp.status = 404 then .modelUnavailable
  else if resp.status = 403 then .authorizationFailure
  else if resp.status = 429 then .rateLimited
  else if resp.status ≠ 200 then .unexpectedServerError
  else if resp.results = none ∨ resp.results = some [] then .emptyResponse
  else if (match resp.results with
    | some (r :: _) => (pyStrip κ ((r.generated_text.getD "").toList)).isEmpty
    | _ => false) then .emptyResponse
  else .success

/-- Modelled from the spec (continued): the credential exchange is
classified first and a failed exchange never reaches the generation
classification. -/
def specClassify (κ : CharClass) (iamStatus : Nat) (resp : GenResponse) : Taxonomy :=
  if iamStatus = 400 then .malformedKey
  else if iamStatus = 401 then .authenticationFailure
  else if iamStatus = 403 then .authorizationFailure
  else if iamStatus ≠ 200 then .unexpectedServerError
  else specGenClassify κ resp

/-- Python `sep.join(parts)`. -/
def joinSep (sep : List Char) : List (List Char) → List Char
  | [] => []
  | [x] => x
  | x :: y :: rest => x ++ sep ++ joinSep sep (y :: rest)

/-- The optional social line of the PDF document header (src/app.py lines
363-372): "LinkedIn: "/"GitHub: " labels with the sanitized values, joined
with " | ", present only for fields that are present and non-empty. -/
def socialLine (κ : CharClass) (ud : UserData) : List Char :=
  let parts : List (List Char) :=
    (match ud.linkedin with
      | some l => if l.isEmpty then [] else ["LinkedIn: ".toList ++ clean_text_for_pdf κ l.toList]
      | none => []) ++
    (match ud.github with
      | some g => if g.isEmpty then [] else ["GitHub: ".toList ++ clean_text_for_pdf κ g.toList]
      | none => [])
  joinSep (" | ".toList) parts

/-- The profile of the spec's end-to-end scenario (§8): required fields
only. -/
def jane : UserData :=
  { name := "Jane Doe", role := "Engineer", phone := "555-0100", email := "jane@ex.com",
    location := none, linkedin := none, github := none, skills := "Go",
    experience := "X", education := "Y", certifications := none }

/-- A profile whose seven required fields all pass validation, with the
linkedin field left as a parameter. -/
def jdoeProfile (linkedin : Option String) : UserData :=
  { name := "John Doe", role := "Engineer", phone := "+1 (555) 123-4567",
    email := "john@example.com", location := some "City", linkedin := linkedin,
    github := some "github.com/jdoe", skills := "Python", experience := "Work",
    education := "School", certifications := none }

/-- Jane's profile with a sentinel linkedin value, used to show the prompt
never mentions the linkedin field. -/
def linkedinProbe : UserData :=
  { jane with linkedin := some "XLINKEDINXVALUEX", github := some "XGITHUBXVALUEX" }

/-- A valid profile carrying a sentinel malformed profile URL. -/
def malformedUrlProfile : UserData := jdoeProfile (some "XXMALFORMEDURLXX")

lemma mem_replaceChar {c k : Char} {v s : List Char} (h : c ∈ replaceChar k v s) :
    c ∈ v ∨ (c ∈ s ∧ c ≠ k) := by
  rcases List.mem_flatMap.1 h with ⟨d, hd, hc⟩
  by_cases hk : d = k
  · subst hk; rw [if_pos rfl] at hc; exact Or.inl hc
  · rw [if_neg hk] at hc
    rcases List.mem_singleton.1 hc with rfl
    exact Or.inr ⟨hd, hk⟩

lemma mem_applyReplacements_high (tbl : List (Char × List Char)) :
    ∀ (s : List Char) (c : Char),
      (∀ kv ∈ tbl, ∀ x ∈ kv.2, x.toNat < 128) →
      c ∈ applyReplacements tbl s → 128 ≤ c.toNat →
      c ∈ s ∧ ∀ kv ∈ tbl, c ≠ kv.1 := by
  induction tbl with
  | nil =>
    intro s c _ h _
    exact ⟨h, by simp⟩
  | cons kv rest ih =>
    intro s c hv h hc
    simp only [applyReplacements] at h
    obtain ⟨hmem, hrest⟩ :=
      ih (replaceChar kv.1 kv.2 s) c (fun p hp x hx => hv p (List.mem_cons_of_mem _ hp) x hx) h hc
    rcases mem_replaceChar hmem with hv2 | ⟨hs, hk⟩
    · have := hv kv (List.mem_cons_self _ _) c hv2
      omega
    · refine ⟨hs, ?_⟩
      intro p hp
      rcases List.mem_cons.1 hp with rfl | hp'
      · exact hk
      · exact hrest p hp'

lemma mem_fallbackChar_lt {κ : CharClass} {c d : Char} (h : c ∈ fallbackChar κ d) :
    c.toNat < 256 := by
  unfold fallbackChar at h
  split_ifs at h <;>
    simp only [List.mem_singleton, List.not_mem_nil] at h <;>
    first
      | exact absurd h (List.not_mem_nil _)
      | (subst h; omega)
      | (subst h; decide)

lemma mem_fallbackChar_high {κ : CharClass} {c d : Char} (h : c ∈ fallbackChar κ d)
    (hc : 128 ≤ c.toNat) : c = d := by
  unfold fallbackChar at h
  split_ifs at h <;>
    simp only [List.mem_singleton, List.not_mem_nil] at h <;>
    first
      | exact h
      | exact absurd h (List.not_mem_nil _)
      | (exfalso; subst h; revert hc; decide)

lemma fallbackChar_fix {κ : CharClass} {c d : Char} (h : c ∈ fallbackChar κ d) :
    fallbackChar κ c = [c] := by
  by_cases hlt : c.toNat < 128
  · unfold fallbackChar
    rw [if_pos hlt]
  · have hcd : c = d := mem_fallbackChar_high h (by omega)
    subst hcd
    unfold fallbackChar at h ⊢
    rw [if_neg hlt] at h ⊢
    by_cases ha : κ.isAlpha c = true
    · rw [if_pos ha] at h ⊢
      by_cases h2 : c.toNat < 256
      · rw [if_pos h2]
      · rw [if_neg h2] at h
        simp only [List.mem_singleton] at h
        subst h
        exact absurd (by decide : ('?' : Char).toNat < 128) hlt
    · rw [if_neg ha] at h ⊢
      by_cases hd : κ.isDigit c = true
      · rw [if_pos hd] at h ⊢
        by_cases h2 : c.toNat < 256
        · rw [if_pos h2]
        · rw [if_neg h2] at h
          simp only [List.mem_singleton] at h
          subst h
          exact absurd (by decide : ('?' : Char).toNat < 128) hlt
      · rw [if_neg hd] at h ⊢
        by_cases hs : κ.isSpace c = true
        · rw [if_pos hs] at h
          simp only [List.mem_singleton] at h
          subst h
          exact absurd (by decide : (' ' : Char).toNat < 128) hlt
        · rw [if_neg hs] at h ⊢
          by_cases h2 : c.toNat < 256
          · rw [if_pos h2]
          · rw [if_neg h2] at h
            exact absurd h (List.not_mem_nil _)

lemma flatMap_fixpoint {f : Char → List Char} {l : List Char}
    (h : ∀ c ∈ l, f c = [c]) : l.flatMap f = l := by
  induction l with
  | nil => rfl
  | cons a t ih =>
    simp [List.flatMap_cons, h a (List.mem_cons_self a t),
      ih fun c hc => h c (List.mem_cons_of_mem _ hc)]

lemma replaceChar_id {k : Char} {v s : List Char} (h : ∀ c ∈ s, c ≠ k) :
    replaceChar k v s = s :=
  flatMap_fixpoint fun c hc => if_neg (h c hc)

lemma applyReplacements_id : ∀ (tbl : List (Char × List Char)) (s : List Char),
    (∀ kv ∈ tbl, ∀ c ∈ s, c ≠ kv.1) → applyReplacements tbl s = s := by
  intro tbl
  induction tbl with
  | nil => intro s _; rfl
  | cons kv rest ih =>
    intro s h
    simp only [applyReplacements]
    rw [replaceChar_id fun c hc => h kv (List.mem_cons_self _ _) c hc]
    exact ih s fun p hp c hc => h p (List.mem_cons_of_mem _ hp) c hc

lemma clean_mem_not_key {κ : CharClass} {s : List Char} {c : Char}
    (h : c ∈ clean_text_for_pdf κ s) : ∀ kv ∈ replacements, c ≠ kv.1 := by
  intro kv hkv
  rcases List.mem_flatMap.1 h with ⟨d, hd, hcd⟩
  by_cases hc : 128 ≤ c.toNat
  · have hcd2 : c = d := mem_fallbackChar_high hcd hc
    subst hcd2
    exact (mem_applyReplacements_high replacements s c (by decide) hd hc).2 kv hkv
  · intro hek
    have hkeys : ∀ p ∈ replacements, 160 ≤ p.1.toNat := by decide
    have := hkeys kv hkv
    rw [hek] at hc
    omega

/-- C1: the sanitizer `clean_text_for_pdf` is idempotent and every character
of its output has code point below 256, for every input string and every
character classification (in particular Python's actual Unicode tables).
Totality and determinism hold by construction: the model is a total Lean
function of the input string. -/
theorem clean_text_for_pdf_idempotent_and_latin1 (κ : CharClass) (s : List Char) :
    clean_text_for_pdf κ (clean_text_for_pdf κ s) = clean_text_for_pdf κ s ∧
    ((clean_text_for_pdf κ s).all fun c => decide (c.toNat < 256)) = true := by
  constructor
  · have h1 : applyReplacements replacements (clean_text_for_pdf κ s) =
        clean_text_for_pdf κ s :=
      applyReplacements_id _ _ fun kv hkv c hc => clean_mem_not_key hc kv hkv
    calc clean_text_for_pdf κ (clean_text_for_pdf κ s)
        = (applyReplacements replacements (clean_text_for_pdf κ s)).flatMap
            (fallbackChar κ) := rfl
      _ = (clean_text_for_pdf κ s).flatMap (fallbackChar κ) := by rw [h1]
      _ = clean_text_for_pdf κ s := by
          apply flatMap_fixpoint
          intro c hc
          simp only [clean_text_for_pdf] at hc
          rcases List.mem_flatMap.1 hc with ⟨d, _, hcd⟩
          exact fallbackChar_fix hcd
  · rw [List.all_eq_true]
    intro c hc
    simp only [clean_text_for_pdf] at hc
    rcases List.mem_flatMap.1 hc with ⟨d, _, hcd⟩
    exact decide_eq_true (mem_fallbackChar_lt hcd)

/-- C8: the substitution table is applied before the per-character fallback
pass, so a lone em dash (U+2014) sanitizes to a hyphen, not to a question
mark — for every character classification. -/
theorem em_dash_sanitizes_to_hyphen (κ : CharClass) :
    clean_text_for_pdf κ [Char.ofNat 0x2014] = ['-'] ∧
    decide (clean_text_for_pdf κ [Char.ofNat 0x2014] = ['?']) = false := by
  have base : clean_text_for_pdf κ [Char.ofNat 0x2014] = ['-'] := rfl
  exact ⟨base, by rw [base]; decide⟩

/-- C3 counterexample: the claim says every character with code point below
256 passes through the fallback pass unchanged, but U+0085 (NEL), which is
whitespace for Python's `str.isspace`, has code point 133 < 256 and is
rewritten to a plain space. -/
theorem fallback_pass_not_identity_below_256 :
    fallbackChar pyClass (Char.ofNat 0x85) = [' '] ∧
    (Char.ofNat 0x85).toNat < 256 ∧
    decide (fallbackChar pyClass (Char.ofNat 0x85) = [Char.ofNat 0x85]) = false := by decide

/-- C3 (amended): in the fallback pass, a character below 128 passes through
unchanged; a character below 256 that is not whitespace passes through
unchanged; a non-ASCII letter-or-digit below 256 passes through unchanged;
a non-ASCII whitespace character (that is neither a letter nor a digit)
becomes a single space; a character with code point at least 256 becomes a
question mark when it is a letter or digit, and is dropped entirely when it
is neither a letter, digit, nor whitespace. -/
theorem fallback_pass_characterization (κ : CharClass) (c : Char) :
    (c.toNat < 128 → fallbackChar κ c = [c]) ∧
    (128 ≤ c.toNat → c.toNat < 256 → (κ.isAlpha c || κ.isDigit c) = true →
      fallbackChar κ c = [c]) ∧
    (128 ≤ c.toNat → κ.isAlpha c = false → κ.isDigit c = false → κ.isSpace c = true →
      fallbackChar κ c = [' ']) ∧
    (c.toNat < 256 → κ.isSpace c = false → fallbackChar κ c = [c]) ∧
    (256 ≤ c.toNat → (κ.isAlpha c || κ.isDigit c) = true → fallbackChar κ c = ['?']) ∧
    (256 ≤ c.toNat → κ.isAlpha c = false → κ.isDigit c = false → κ.isSpace c = false →
      fallbackChar κ c = []) := by
  refine ⟨?_, ?_, ?_, ?_, ?_, ?_⟩
  · intro h
    simp [fallbackChar, h]
  · intro h1 h2 h3
    have h0 : ¬ c.toNat < 128 := by omega
    by_cases ha : κ.isAlpha c = true
    · simp [fallbackChar, h0, ha, h2]
    · have hd : κ.isDigit c = true := by
        rcases Bool.or_eq_true_iff.1 h3 with h | h
        · exact absurd h ha
        · exact h
      simp [fallbackChar, h0, ha, hd, h2]
  · intro h1 ha hd hs
    have h0 : ¬ c.toNat < 128 := by omega
    simp [fallbackChar, h0, ha, hd, hs]
  · intro h1 hs
    by_cases h0 : c.toNat < 128
    · simp [fallbackChar, h0]
    · by_cases ha : κ.isAlpha c = true
      · simp [fallbackChar, h0, ha, h1]
      · by_cases hd : κ.isDigit c = true
        · simp [fallbackChar, h0, ha, hd, h1]
        · simp [fallbackChar, h0, ha, hd, hs, h1]
  · intro h1 h3
    have h0 : ¬ c.toNat < 128 := by omega
    have h2 : ¬ c.toNat < 256 := by omega
    by_cases ha : κ.isAlpha c = true
    · simp [fallbackChar, h0, ha, h2]
    · have hd : κ.isDigit c = true := by
        rcases Bool.or_eq_true_iff.1 h3 with h | h
        · exact absurd h ha
        · exact h
      simp [fallbackChar, h0, ha, hd, h2]
  · intro h1 ha hd hs
    have h0 : ¬ c.toNat < 128 := by omega
    have h2 : ¬ c.toNat < 256 := by omega
    simp [fallbackChar, h0, ha, hd, hs, h2]

/-- Witness for the amended C3 characterization at concrete characters:
é (U+00E9, letter below 256) is kept, 中 (U+4E2D, letter at or above 256)
becomes a question mark, EM SPACE (U+2003, whitespace) becomes a space, and
WORD JOINER (U+2060, none of the categories) is dropped. -/
theorem fallback_pass_characterization_witness :
    fallbackChar pyClass (Char.ofNat 0xe9) = [Char.ofNat 0xe9] ∧
    fallbackChar pyClass (Char.ofNat 0x4e2d) = ['?'] ∧
    fallbackChar pyClass (Char.ofNat 0x2003) = [' '] ∧
    fallbackChar pyClass (Char.ofNat 0x2060) = [] :=
  ⟨(fallback_pass_characterization pyClass _).2.1 (by decide) (by decide) (by decide),
   (fallback_pass_characterization pyClass _).2.2.2.2.1 (by decide) (by decide),
   (fallback_pass_characterization pyClass _).2.2.1 (by decide) (by decide) (by decide)
     (by decide),
   (fallback_pass_characterization pyClass _).2.2.2.2.2 (by decide) (by decide) (by decide)
     (by decide)⟩



lemma startsWithL_self_append : ∀ (p b : List Char), startsWithL (p ++ b) p = true := by
  intro p
  induction p with
  | nil => intro b; simp [startsWithL]
  | cons a t ih => intro b; simp [startsWithL, ih b]

lemma startsWithL_append_ext : ∀ {h p : List Char} (b : List Char),
    startsWithL h p = true → startsWithL (h ++ b) p = true := by
  intro h p
  induction p generalizing h with
  | nil => intro b _; simp [startsWithL]
  | cons x q ih =>
    intro b hs
    cases h with
    | nil => simp [startsWithL] at hs
    | cons a t =>
      simp only [startsWithL, Bool.and_eq_true] at hs
      simp only [List.cons_append, startsWithL, Bool.and_eq_true]
      exact ⟨hs.1, ih b hs.2⟩

lemma contains_of_startsWith {h p : List Char} (hs : startsWithL h p = true) :
    containsL h p = true := by
  cases h with
  | nil =>
    cases p with
    | nil => rfl
    | cons x q => simp [startsWithL] at hs
  | cons c t => simp [containsL, hs]

lemma contains_cons (c : Char) (t p : List Char) (h : containsL t p = true) :
    containsL (c :: t) p = true := by
  simp [containsL, h]

lemma contains_appR (a b p : List Char) (h : containsL b p = true) :
    containsL (a ++ b) p = true := by
  induction a with
  | nil => simpa using h
  | cons x t ih =>
    simp only [List.cons_append]
    exact contains_cons x _ p ih

lemma contains_appL (a b p : List Char) (h : containsL a p = true) :
    containsL (a ++ b) p = true := by
  induction a with
  | nil =>
    have hp : p = [] := by
      cases p with
      | nil => rfl
      | cons x q => simp [containsL] at h
    subst hp
    cases b with
    | nil => rfl
    | cons y u => simp [containsL, startsWithL]
  | cons x t ih =>
    simp only [containsL, Bool.or_eq_true] at h
    rcases h with hs | hc
    · exact contains_of_startsWith (startsWithL_append_ext b hs)
    · simp only [List.cons_append, containsL, Bool.or_eq_true]
      exact Or.inr (ih hc)

lemma contains_self (p : List Char) : containsL p p = true := by
  have := startsWithL_self_append p []
  rw [List.append_nil] at this
  exact contains_of_startsWith this

lemma contains_self_pre (p b : List Char) : containsL (p ++ b) p = true :=
  contains_of_startsWith (startsWithL_self_append p b)

lemma contains_self_pre2 (a b r : List Char) : containsL (a ++ (b ++ r)) (a ++ b) = true := by
  have := startsWithL_self_append (a ++ b) r
  rw [List.append_assoc] at this
  exact contains_of_startsWith this

lemma contains_step (L v : List Char) {r p : List Char} (h : containsL r p = true) :
    containsL ('\n' :: (L ++ (v ++ r))) p = true :=
  contains_cons _ _ _ (contains_appR _ _ _ (contains_appR _ _ _ h))

lemma contains_here (L v r : List Char) :
    containsL ('\n' :: (L ++ (v ++ r))) (L ++ v) = true :=
  contains_cons _ _ _ (contains_self_pre2 _ _ _)

lemma contains_val (L v r : List Char) :
    containsL ('\n' :: (L ++ (v ++ r))) v = true :=
  contains_cons _ _ _ (contains_appR _ _ _ (contains_self_pre _ _))

lemma base_has_name (ud : UserData) :
    containsL (base_info ud) ("Name: ".toList ++ ud.name.toList) = true := by
  unfold base_info
  exact contains_here _ _ _

lemma base_has_role (ud : UserData) :
    containsL (base_info ud) ("Role: ".toList ++ ud.role.toList) = true := by
  unfold base_info
  exact contains_step _ _ (contains_here _ _ _)

lemma base_has_phone (ud : UserData) :
    containsL (base_info ud) ("Phone: ".toList ++ ud.phone.toList) = true := by
  unfold base_info
  exact contains_step _ _ (contains_step _ _ (contains_here _ _ _))

lemma base_has_email (ud : UserData) :
    containsL (base_info ud) ("Email: ".toList ++ ud.email.toList) = true := by
  unfold base_info
  exact contains_step _ _ (contains_step _ _ (contains_step _ _ (contains_here _ _ _)))

lemma base_has_location (ud : UserData) :
    containsL (base_info ud)
      ("Location: ".toList ++ (ud.location.getD "Not specified").toList) = true := by
  unfold base_info
  exact contains_step _ _ (contains_step _ _ (contains_step _ _ (contains_step _ _
    (contains_here _ _ _))))

lemma base_has_skills (ud : UserData) :
    containsL (base_info ud) ("Skills: ".toList ++ ud.skills.toList) = true := by
  unfold base_info
  exact contains_step _ _ (contains_step _ _ (contains_step _ _ (contains_step _ _
    (contains_step _ _ (contains_here _ _ _)))))

lemma base_has_experience (ud : UserData) :
    containsL (base_info ud) ("Experience: ".toList ++ ud.experience.toList) = true := by
  unfold base_info
  exact contains_step _ _ (contains_step _ _ (contains_step _ _ (contains_step _ _
    (contains_step _ _ (contains_step _ _ (contains_here _ _ _))))))

lemma base_has_education (ud : UserData) :
    containsL (base_info ud) ("Education: ".toList ++ ud.education.toList) = true := by
  unfold base_info
  exact contains_step _ _ (contains_step _ _ (contains_step _ _ (contains_step _ _
    (contains_step _ _ (contains_step _ _ (contains_step _ _ (contains_here _ _ _)))))))

lemma base_has_certifications (ud : UserData) :
    containsL (base_info ud)
      ("Certifications: ".toList ++ (ud.certifications.getD "None listed").toList) = true := by
  unfold base_info
  exact contains_step _ _ (contains_step _ _ (contains_step _ _ (contains_step _ _
    (contains_step _ _ (contains_step _ _ (contains_step _ _ (contains_step _ _
      (contains_here _ _ _))))))))

lemma base_val_name (ud : UserData) : containsL (base_info ud) ud.name.toList = true := by
  unfold base_info
  exact contains_val _ _ _

lemma base_val_role (ud : UserData) : containsL (base_info ud) ud.role.toList = true := by
  unfold base_info
  exact contains_step _ _ (contains_val _ _ _)

lemma base_val_phone (ud : UserData) : containsL (base_info ud) ud.phone.toList = true := by
  unfold base_info
  exact contains_step _ _ (contains_step _ _ (contains_val _ _ _))

lemma base_val_email (ud : UserData) : containsL (base_info ud) ud.email.toList = true := by
  unfold base_info
  exact contains_step _ _ (contains_step _ _ (contains_step _ _ (contains_val _ _ _)))

lemma base_val_skills (ud : UserData) : containsL (base_info ud) ud.skills.toList = true := by
  unfold base_info
  exact contains_step _ _ (contains_step _ _ (contains_step _ _ (contains_step _ _
    (contains_step _ _ (contains_val _ _ _)))))

lemma base_val_experience (ud : UserData) :
    containsL (base_info ud) ud.experience.toList = true := by
  unfold base_info
  exact contains_step _ _ (contains_step _ _ (contains_step _ _ (contains_step _ _
    (contains_step _ _ (contains_step _ _ (contains_val _ _ _))))))

lemma base_val_education (ud : UserData) :
    containsL (base_info ud) ud.education.toList = true := by
  unfold base_info
  exact contains_step _ _ (contains_step _ _ (contains_step _ _ (contains_step _ _
    (contains_step _ _ (contains_step _ _ (contains_step _ _ (contains_val _ _ _)))))))

lemma prompt_contains_of_base {ud : UserData} {p : List Char} (s : String)
    (h : containsL (base_info ud) p = true) :
    containsL (create_resume_prompt ud s) p = true := by
  unfold create_resume_prompt
  split_ifs <;> exact contains_appL _ _ _ (contains_appR _ _ _ h)

lemma prompt_contains_tail (ud : UserData) (s : String) :
    ∃ hd tl, create_resume_prompt ud s = hd ++ base_info ud ++ tl ∧
      containsL (create_resume_prompt ud s) tl = true := by
  unfold create_resume_prompt
  split_ifs <;> exact ⟨_, _, rfl, contains_appR _ _ _ (contains_self _)⟩

set_option maxRecDepth 80000 in
/-- C4 counterexample: the claim lists linkedin and github among the fields
rendered as `label: value` lines, but `create_resume_prompt` never renders
them: for a profile whose linkedin and github carry sentinel values, neither
the sentinel values nor any "LinkedIn"/"GitHub" label occurs anywhere in the
generated prompt. -/
theorem prompt_omits_linkedin :
    linkedinProbe.linkedin = some "XLINKEDINXVALUEX" ∧
    linkedinProbe.github = some "XGITHUBXVALUEX" ∧
    containsL (create_resume_prompt linkedinProbe "professional")
      ("XLINKEDINXVALUEX".toList) = false ∧
    containsL (create_resume_prompt linkedinProbe "professional")
      ("XGITHUBXVALUEX".toList) = false ∧
    containsL (create_resume_prompt linkedinProbe "professional")
      ("LinkedIn".toList) = false ∧
    containsL (create_resume_prompt linkedinProbe "professional")
      ("GitHub".toList) = false := by
  decide

/-- C4 (amended): for every profile and every style string, the prompt
contains a `label: value` line for each of the nine fields the source
renders — name, role, phone, email, location (with placeholder
"Not specified" when absent), skills, experience, education and
certifications (with placeholder "None listed" when absent) — and for each
of the four styles the prompt also contains that style's full instruction
block; linkedin and github are not rendered (see the counterexample). -/
theorem create_resume_prompt_field_lines (ud : UserData) (s : String) :
    containsL (create_resume_prompt ud s) ("Name: ".toList ++ ud.name.toList) = true ∧
    containsL (create_resume_prompt ud s) ("Role: ".toList ++ ud.role.toList) = true ∧
    containsL (create_resume_prompt ud s) ("Phone: ".toList ++ ud.phone.toList) = true ∧
    containsL (create_resume_prompt ud s) ("Email: ".toList ++ ud.email.toList) = true ∧
    containsL (create_resume_prompt ud s)
      ("Location: ".toList ++ (ud.location.getD "Not specified").toList) = true ∧
    containsL (create_resume_prompt ud s) ("Skills: ".toList ++ ud.skills.toList) = true ∧
    containsL (create_resume_prompt ud s)
      ("Experience: ".toList ++ ud.experience.toList) = true ∧
    containsL (create_resume_prompt ud s)
      ("Education: ".toList ++ ud.education.toList) = true ∧
    containsL (create_resume_prompt ud s)
      ("Certifications: ".toList ++ (ud.certifications.getD "None listed").toList) = true ∧
    containsL (create_resume_prompt ud "professional") professionalTail = true ∧
    containsL (create_resume_prompt ud "technical") technicalTail = true ∧
    containsL (create_resume_prompt ud "creative") creativeTail = true ∧
    containsL (create_resume_prompt ud "academic") academicTail = true := by
  refine ⟨prompt_contains_of_base s (base_has_name ud),
    prompt_contains_of_base s (base_has_role ud),
    prompt_contains_of_base s (base_has_phone ud),
    prompt_contains_of_base s (base_has_email ud),
    prompt_contains_of_base s (base_has_location ud),
    prompt_contains_of_base s (base_has_skills ud),
    prompt_contains_of_base s (base_has_experience ud),
    prompt_contains_of_base s (base_has_education ud),
    prompt_contains_of_base s (base_has_certifications ud), ?_, ?_, ?_, ?_⟩
  · have h : create_resume_prompt ud "professional" =
        professionalHead ++ base_info ud ++ professionalTail := by
      unfold create_resume_prompt
      rw [if_pos rfl]
    rw [h]
    exact contains_appR _ _ _ (contains_self _)
  · have h : create_resume_prompt ud "technical" =
        technicalHead ++ base_info ud ++ technicalTail := by
      unfold create_resume_prompt
      rw [if_neg (by decide), if_pos rfl]
    rw [h]
    exact contains_appR _ _ _ (contains_self _)
  · have h : create_resume_prompt ud "creative" =
        creativeHead ++ base_info ud ++ creativeTail := by
      unfold create_resume_prompt
      rw [if_neg (by decide), if_neg (by decide), if_pos rfl]
    rw [h]
    exact contains_appR _ _ _ (contains_self _)
  · have h : create_resume_prompt ud "academic" =
        academicHead ++ base_info ud ++ academicTail := by
      unfold create_resume_prompt
      rw [if_neg (by decide), if_neg (by decide), if_neg (by decide)]
    rw [h]
    exact contains_appR _ _ _ (contains_self _)

set_option maxRecDepth 80000 in
/-- C9: `create_resume_prompt` is a pure function of `(profile, style)` — in
this model it is a total Lean function, so the same pair always yields the
identical string — and for every profile and every style string the prompt
contains each required field value verbatim; for the spec's Jane Doe profile
with the professional style, the prompt contains the literal substrings
"Name: Jane Doe" and "Skills: Go". -/
theorem create_resume_prompt_pure_contains_values (ud : UserData) (s : String) :
    containsL (create_resume_prompt ud s) ud.name.toList = true ∧
    containsL (create_resume_prompt ud s) ud.role.toList = true ∧
    containsL (create_resume_prompt ud s) ud.phone.toList = true ∧
    containsL (create_resume_prompt ud s) ud.email.toList = true ∧
    containsL (create_resume_prompt ud s) ud.skills.toList = true ∧
    containsL (create_resume_prompt ud s) ud.experience.toList = true ∧
    containsL (create_resume_prompt ud s) ud.education.toList = true ∧
    containsL (create_resume_prompt jane "professional") ("Name: Jane Doe".toList) = true ∧
    containsL (create_resume_prompt jane "professional") ("Skills: Go".toList) = true := by
  refine ⟨prompt_contains_of_base s (base_val_name ud),
    prompt_contains_of_base s (base_val_role ud),
    prompt_contains_of_base s (base_val_phone ud),
    prompt_contains_of_base s (base_val_email ud),
    prompt_contains_of_base s (base_val_skills ud),
    prompt_contains_of_base s (base_val_experience ud),
    prompt_contains_of_base s (base_val_education ud), by decide, by decide⟩

/-- C2: characterization of the body pass of `export_as_pdf`.  With the skip
strings `[n, p, e]` (sanitized upper-cased name, phone, email) and
`skip_header` initially set, the rendered items are exactly: one blank
spacer for each blank line among the lines up to (but excluding) the first
line that ends skip mode — a line that is non-blank, contains none of the
skip strings verbatim, is entirely upper-case and is shorter than 50
characters — with every other such line (in particular every line containing
a skip string verbatim) dropped, followed by normal processing that starts
at the mode-ending line itself.  When no line of the text satisfies the exit
condition, `dropWhile` returns `[]` and the whole body renders as blank
spacers only: every body line is silently suppressed. -/
theorem export_as_pdf_header_skip (κ : CharClass) (n p e : List Char)
    (lines : List (List Char)) :
    processLines κ [n, p, e] true lines =
      ((lines.takeWhile fun l => !exitsSkip κ [n, p, e] l).filter
          fun l => (pyStrip κ l).isEmpty).map (fun _ => PdfItem.blank)
        ++ processLines κ [n, p, e] false
            (lines.dropWhile fun l => !exitsSkip κ [n, p, e] l) := by
  induction lines with
  | nil => rfl
  | cons raw ls ih =>
    by_cases h0 : (pyStrip κ raw).isEmpty = true
    · have hex : exitsSkip κ [n, p, e] raw = false := by
        simp [exitsSkip, h0]
      rw [List.takeWhile_cons_of_pos (by simp [hex]),
        List.dropWhile_cons_of_pos (by simp [hex]),
        List.filter_cons_of_pos (by simpa using h0)]
      have hL : processLines κ [n, p, e] true (raw :: ls) =
          PdfItem.blank :: processLines κ [n, p, e] true ls := by
        simp [processLines, h0]
      rw [hL, ih, List.map_cons, List.cons_append]
    · by_cases h1 : ([n, p, e].any fun i => containsL (pyStrip κ raw) i) = true
      · have hex : exitsSkip κ [n, p, e] raw = false := by
          simp [exitsSkip, h1]
        rw [List.takeWhile_cons_of_pos (by simp [hex]),
          List.dropWhile_cons_of_pos (by simp [hex]),
          List.filter_cons_of_neg (by simpa using h0)]
        have hL : processLines κ [n, p, e] true (raw :: ls) =
            processLines κ [n, p, e] true ls := by
          simp [processLines, h0, h1]
        rw [hL, ih]
      · by_cases h2 : (pyIsUpper κ (pyStrip κ raw) &&
            decide ((pyStrip κ raw).length < 50)) = true
        · have hex : exitsSkip κ [n, p, e] raw = true := by
            simp [exitsSkip, h0, h1, h2]
          have hL : processLines κ [n, p, e] true (raw :: ls) =
              classifyLine κ (pyStrip κ raw) :: processLines κ [n, p, e] false ls := by
            simp [processLines, h0, h1, h2]
          have hR : processLines κ [n, p, e] false (raw :: ls) =
              classifyLine κ (pyStrip κ raw) :: processLines κ [n, p, e] false ls := by
            simp [processLines, h0]
          rw [List.takeWhile_cons_of_neg (by simp [hex]),
            List.dropWhile_cons_of_neg (by simp [hex]), hL, hR]
          simp
        · have hex : exitsSkip κ [n, p, e] raw = false := by
            simp [exitsSkip, h2]
          rw [List.takeWhile_cons_of_pos (by simp [hex]),
            List.dropWhile_cons_of_pos (by simp [hex]),
            List.filter_cons_of_neg (by simpa using h0)]
          have hL : processLines κ [n, p, e] true (raw :: ls) =
              processLines κ [n, p, e] true ls := by
            simp [processLines, h0, h1, h2]
          rw [hL, ih]

/-- C7 counterexample: the claim says every line starting with the marker
`"+ "` renders as a bullet, but the section-header branch only excludes
lines starting with `-` or `*`, so the all-caps line `"+ FOO"` (length 5,
under 50) renders as a section header, not as a bullet. -/
theorem classify_plus_caps_line_is_header :
    classifyLine pyClass ("+ FOO".toList) = PdfItem.header ("+ FOO".toList) ∧
    decide (classifyLine pyClass ("+ FOO".toList) =
      PdfItem.bullet (pyStrip pyClass ("FOO".toList))) = false := by
  decide

/-- C7 (amended): a stripped line starting with `"- "` or `"* "` always
renders as a bullet whose content is the rest of the line with the
2-character marker stripped (and then whitespace-stripped); a line starting
with `"+ "` renders the same way unless it is entirely upper-case and under
50 characters, in which case it renders as a section header; and a line
that is entirely upper-case, under 50 characters and does not start with
`-` or `*` renders as a section header (drawn with a horizontal rule, which
is what `PdfItem.header` denotes). -/
theorem classify_line_rules (κ : CharClass) (line rest : List Char) :
    (line = '-' :: ' ' :: rest → rest ≠ [] →
      classifyLine κ line = PdfItem.bullet (pyStrip κ rest)) ∧
    (line = '*' :: ' ' :: rest → rest ≠ [] →
      classifyLine κ line = PdfItem.bullet (pyStrip κ rest)) ∧
    (line = '+' :: ' ' :: rest → rest ≠ [] →
      ¬(pyIsUpper κ line = true ∧ line.length < 50) →
      classifyLine κ line = PdfItem.bullet (pyStrip κ rest)) ∧
    (line = '+' :: ' ' :: rest → pyIsUpper κ line = true → line.length < 50 →
      classifyLine κ line = PdfItem.header line) ∧
    (pyIsUpper κ line = true → line.length < 50 → startsWithL line ['-'] = false →
      startsWithL line ['*'] = false → classifyLine κ line = PdfItem.header line) := by
  refine ⟨?_, ?_, ?_, ?_, ?_⟩
  · rintro rfl hrest
    obtain ⟨a, t, rfl⟩ : ∃ a t, rest = a :: t := by
      cases rest with
      | nil => exact absurd rfl hrest
      | cons a t => exact ⟨a, t, rfl⟩
    simp [classifyLine, startsWithL]
  · rintro rfl hrest
    obtain ⟨a, t, rfl⟩ : ∃ a t, rest = a :: t := by
      cases rest with
      | nil => exact absurd rfl hrest
      | cons a t => exact ⟨a, t, rfl⟩
    simp [classifyLine, startsWithL]
  · rintro rfl hrest hcaps
    obtain ⟨a, t, rfl⟩ : ∃ a t, rest = a :: t := by
      cases rest with
      | nil => exact absurd rfl hrest
      | cons a t => exact ⟨a, t, rfl⟩
    simp only [List.length_cons] at hcaps
    simp [classifyLine, startsWithL, hcaps]
  · rintro rfl hup hlen
    simp only [List.length_cons] at hlen
    simp [classifyLine, startsWithL, hup, hlen]
  · intro hup hlen hd hs
    simp [classifyLine, hup, hlen, hd, hs]

/-- Witness for the amended C7 rules: the spec's own examples — the line
"- Built a thing" renders as the bullet "Built a thing", and the line
"EXPERIENCE" renders as a section header. -/
theorem classify_line_rules_witness :
    classifyLine pyClass ("- Built a thing".toList) =
      PdfItem.bullet (pyStrip pyClass ("Built a thing".toList)) ∧
    classifyLine pyClass ("EXPERIENCE".toList) = PdfItem.header ("EXPERIENCE".toList) :=
  ⟨(classify_line_rules pyClass ("- Built a thing".toList) ("Built a thing".toList)).1
      (by decide) (by decide),
   (classify_line_rules pyClass ("EXPERIENCE".toList) []).2.2.2.2
      (by decide) (by decide) (by decide) (by decide)⟩

lemma run_generation_taxonomy (κ : CharClass) (r : GenResponse) :
    toTaxonomy (run_generation κ r) = specGenClassify κ r := by
  rcases r with ⟨st, res⟩
  by_cases h404 : st = 404
  · simp [run_generation, specGenClassify, toTaxonomy, h404]
  · by_cases h403 : st = 403
    · simp [run_generation, specGenClassify, toTaxonomy, h404, h403]
    · by_cases h429 : st = 429
      · simp [run_generation, specGenClassify, toTaxonomy, h404, h403, h429]
      · by_cases h200 : st = 200
        · subst h200
          rcases res with _ | ⟨_ | ⟨r0, rs⟩⟩
          · simp [run_generation, specGenClassify, toTaxonomy, h404, h403, h429]
          · simp [run_generation, specGenClassify, toTaxonomy, h404, h403, h429]
          · by_cases he : pyStrip κ (r0.generated_text.getD "").data = []
            · simp [run_generation, specGenClassify, toTaxonomy, h404, h403, h429, he,
                List.isEmpty_iff]
            · simp [run_generation, specGenClassify, toTaxonomy, h404, h403, h429, he,
                List.isEmpty_iff]
        · simp [run_generation, specGenClassify, toTaxonomy, h404, h403, h429, h200]

/-- C5: classification refinement of the generation client.  Mapping the
source's error sites onto the spec's taxonomy, the outcome of the two-round
pipeline equals the spec's classification for every credential-exchange
status, token and generation response: exchange status 400 is the malformed
key, 401 the authentication failure, 403 the authorization failure, any
other non-200 the unexpected server error; on a successful exchange, a
generation status 404 is model-unavailable, 403 authorization failure, 429
rate-limited, any other non-200 the unexpected server error; and a 200
generation response with a missing or empty results array, or whose
generated text strips to empty, is the empty response, never success.
Moreover, when the exchange status is not 200 the outcome is independent of
the generation response: no generation call occurs on a failed exchange. -/
theorem generation_client_status_taxonomy (κ : CharClass) (i : Nat) (t : String)
    (r : GenResponse) :
    toTaxonomy (call_model κ i t r) = specClassify κ i r ∧
    (i ≠ 200 → ∀ r2, call_model κ i t r = call_model κ i t r2) := by
  constructor
  · by_cases h400 : i = 400
    · subst h400
      simp [call_model, get_iam_token, specClassify, toTaxonomy]
    · by_cases h401 : i = 401
      · subst h401
        simp [call_model, get_iam_token, specClassify, toTaxonomy]
      · by_cases h403 : i = 403
        · subst h403
          simp [call_model, get_iam_token, specClassify, toTaxonomy]
        · by_cases h200 : i = 200
          · subst h200
            simp only [call_model, get_iam_token, specClassify]
            simp only [ne_eq, not_true_eq_false, if_false, if_neg h400, if_neg h401,
              if_neg h403]
            exact run_generation_taxonomy κ r
          · simp [call_model, get_iam_token, specClassify, toTaxonomy, h400, h401, h403,
              h200]
  · intro hne r2
    have hiam : ∃ err, get_iam_token i t = Except.error err := by
      unfold get_iam_token
      rw [if_pos hne]
      split_ifs <;> exact ⟨_, rfl⟩
    rcases hiam with ⟨err, herr⟩
    unfold call_model
    rw [herr]

/-- Witness for the C5 classification theorem at concrete inputs: a 401
credential exchange classifies as an authentication failure and ignores the
generation response; a 200 exchange with a 200 generation response carrying
`results: []` classifies as an empty response. -/
theorem generation_client_status_taxonomy_witness :
    toTaxonomy (call_model pyClass 401 "tok" ⟨200, some []⟩) =
      specClassify pyClass 401 ⟨200, some []⟩ ∧
    specClassify pyClass 401 ⟨200, some []⟩ = Taxonomy.authenticationFailure ∧
    call_model pyClass 401 "tok" ⟨200, some []⟩ =
      call_model pyClass 401 "tok" ⟨500, none⟩ ∧
    toTaxonomy (call_model pyClass 200 "tok" ⟨200, some []⟩) =
      specClassify pyClass 200 ⟨200, some []⟩ ∧
    specClassify pyClass 200 ⟨200, some []⟩ = Taxonomy.emptyResponse :=
  ⟨(generation_client_status_taxonomy pyClass 401 "tok" ⟨200, some []⟩).1,
   by decide,
   (generation_client_status_taxonomy pyClass 401 "tok" ⟨200, some []⟩).2
     (by decide) ⟨500, none⟩,
   (generation_client_status_taxonomy pyClass 200 "tok" ⟨200, some []⟩).1,
   by decide⟩

/-- C6: validation behaviour of `generate_resume`.  For every character
classification and profile: a required field whose value strips to empty
puts its name into a missing-fields validation error; if no required field
is missing but the email fails the email grammar, the invalid-email error
is raised; if additionally the email passes but the phone fails the phone
grammar, the invalid-phone error is raised; any validation error
short-circuits the whole pipeline (the result is that error for every
token-exchange status, token and generation response — no network call).
Concretely, an otherwise-valid profile with `linkedin = ""` or
`linkedin = "https://linkedin.com/in/jdoe"` passes validation, the email
"not-an-email" fails the email grammar, and the phone "abc" fails the
phone grammar. -/
theorem generate_resume_validation (κ : CharClass) (ud : UserData) :
    (∀ p ∈ requiredFields, (pyStrip κ ((p.2 ud).toList)).isEmpty = true →
      ∃ fs, preflight κ ud = some (AppError.missingFields fs) ∧ p.1 ∈ fs) ∧
    ((∀ p ∈ requiredFields, (pyStrip κ ((p.2 ud).toList)).isEmpty = false) →
      validate_email ud.email = false → preflight κ ud = some AppError.invalidEmail) ∧
    ((∀ p ∈ requiredFields, (pyStrip κ ((p.2 ud).toList)).isEmpty = false) →
      validate_email ud.email = true → validate_phone κ ud.phone = false →
      preflight κ ud = some AppError.invalidPhone) ∧
    (∀ e, preflight κ ud = some e → ∀ st i t r,
      generate_resume κ ud st i t r = Except.error e) ∧
    preflight pyClass (jdoeProfile (some "")) = none ∧
    preflight pyClass (jdoeProfile (some "https://linkedin.com/in/jdoe")) = none ∧
    validate_email "not-an-email" = false ∧
    validate_phone pyClass "abc" = false := by
  refine ⟨?_, ?_, ?_, ?_, by decide, by decide, by decide, by decide⟩
  · intro p hp hstrip
    have hmem : p.1 ∈ missing_fields κ ud :=
      List.mem_map.2 ⟨p, List.mem_filter.2 ⟨hp, hstrip⟩, rfl⟩
    have hne : (missing_fields κ ud).isEmpty = false := by
      simp [List.isEmpty_iff, List.ne_nil_of_mem hmem]
    refine ⟨missing_fields κ ud, ?_, hmem⟩
    unfold preflight
    rw [hne]
    rfl
  · intro hall hmail
    have hnil : missing_fields κ ud = [] := by
      unfold missing_fields
      rw [List.filter_eq_nil_iff.2 fun p hp => by simpa using hall p hp]
      rfl
    unfold preflight
    rw [hnil, hmail]
    rfl
  · intro hall hmail hphone
    have hnil : missing_fields κ ud = [] := by
      unfold missing_fields
      rw [List.filter_eq_nil_iff.2 fun p hp => by simpa using hall p hp]
      rfl
    unfold preflight
    rw [hnil, hmail, hphone]
    rfl
  · intro e he st i t r
    simp [generate_resume, he]

/-- Witness for the C6 validation theorem at concrete profiles: a blank
name yields a missing-fields error naming "name"; the email "not-an-email"
yields the invalid-email error; the phone "abc" yields the invalid-phone
error; and the invalid-email error short-circuits the whole pipeline. -/
theorem generate_resume_validation_witness :
    (∃ fs, preflight pyClass { jdoeProfile none with name := "  " } =
      some (AppError.missingFields fs) ∧ "name" ∈ fs) ∧
    preflight pyClass { jdoeProfile none with email := "not-an-email" } =
      some AppError.invalidEmail ∧
    preflight pyClass { jdoeProfile none with phone := "abc" } =
      some AppError.invalidPhone ∧
    generate_resume pyClass { jdoeProfile none with email := "not-an-email" }
      "professional" 200 "tok" ⟨200, some []⟩ = Except.error AppError.invalidEmail :=
  ⟨(generate_resume_validation pyClass _).1 ("name", UserData.name)
      (by unfold requiredFields; exact List.mem_cons_self _ _) (by decide),
   (generate_resume_validation pyClass _).2.1 (by decide) (by decide),
   (generate_resume_validation pyClass _).2.2.1 (by decide) (by decide) (by decide),
   (generate_resume_validation pyClass _).2.2.2.1 AppError.invalidEmail (by decide)
     "professional" 200 "tok" ⟨200, some []⟩⟩

set_option maxRecDepth 80000 in
/-- C10 counterexample: with a malformed sentinel linkedin URL the
validation prefix of `generate_resume` accepts the profile (so no
validation error is raised and `validate_linkedin` would have rejected it),
but contrary to the claim the URL does not flow into the prompt: the
sentinel value occurs nowhere in the generated prompt. -/
theorem linkedin_not_validated_not_in_prompt :
    malformedUrlProfile.linkedin = some "XXMALFORMEDURLXX" ∧
    preflight pyClass malformedUrlProfile = none ∧
    validate_linkedin "XXMALFORMEDURLXX" = false ∧
    containsL (create_resume_prompt malformedUrlProfile "professional")
      ("XXMALFORMEDURLXX".toList) = false := by
  decide

/-- C10 (amended): the pipeline never validates the linkedin or github
fields — validation is entirely independent of them, and every profile
whose seven required fields strip to non-empty and whose email and phone
pass their grammars passes validation no matter what linkedin and github
contain.  The unchecked values do not reach the prompt, which is also
independent of them; they flow instead into the rendered document header
(the social line contains the sanitized linkedin value verbatim) and the
packaged artifacts. -/
theorem pipeline_ignores_linkedin_github (κ : CharClass) (ud : UserData)
    (l g : Option String) (s : String) :
    preflight κ { ud with linkedin := l, github := g } = preflight κ ud ∧
    create_resume_prompt { ud with linkedin := l, github := g } s =
      create_resume_prompt ud s ∧
    ((∀ p ∈ requiredFields, (pyStrip κ ((p.2 ud).toList)).isEmpty = false) →
      validate_email ud.email = true → validate_phone κ ud.phone = true →
      preflight κ { ud with linkedin := l, github := g } = none) ∧
    (∀ lk, ud.linkedin = some lk → lk.isEmpty = false →
      containsL (socialLine κ ud) (clean_text_for_pdf κ lk.toList) = true) := by
  refine ⟨rfl, rfl, ?_, ?_⟩
  · intro hall hmail hphone
    have heq : preflight κ { ud with linkedin := l, github := g } = preflight κ ud := rfl
    rw [heq]
    have hnil : missing_fields κ ud = [] := by
      unfold missing_fields
      rw [List.filter_eq_nil_iff.2 fun p hp => by simpa using hall p hp]
      rfl
    unfold preflight
    rw [hnil, hmail, hphone]
    rfl
  · intro lk hlk hne
    unfold socialLine
    rw [hlk]
    simp only [hne, Bool.false_eq_true, if_false]
    rcases hg : ud.github with _ | gv
    · show containsL (joinSep (" | ".toList)
        ["LinkedIn: ".toList ++ clean_text_for_pdf κ lk.toList]) _ = true
      rw [joinSep]
      exact contains_appR _ _ _ (contains_self _)
    · by_cases hge : gv.isEmpty = true
      · simp only [hge, if_true]
        show containsL (joinSep (" | ".toList)
          ["LinkedIn: ".toList ++ clean_text_for_pdf κ lk.toList]) _ = true
        rw [joinSep]
        exact contains_appR _ _ _ (contains_self _)
      · simp only [Bool.not_eq_true] at hge
        simp only [hge, Bool.false_eq_true, if_false]
        show containsL (joinSep (" | ".toList)
          ["LinkedIn: ".toList ++ clean_text_for_pdf κ lk.toList,
           "GitHub: ".toList ++ clean_text_for_pdf κ gv.toList]) _ = true
        rw [joinSep, joinSep]
        exact contains_appL _ _ _ (contains_appL _ _ _
          (contains_appR _ _ _ (contains_self _)))

/-- Witness for the amended C10 theorem at a concrete profile: the profile
carrying the malformed sentinel URL passes validation with its linkedin and
github fields replaced arbitrarily, and the document-header social line
contains the sanitized sentinel URL verbatim. -/
theorem pipeline_ignores_linkedin_github_witness :
    preflight pyClass { malformedUrlProfile with linkedin := some "x", github := none } =
      none ∧
    containsL (socialLine pyClass malformedUrlProfile)
      (clean_text_for_pdf pyClass ("XXMALFORMEDURLXX".toList)) = true :=
  ⟨(pipeline_ignores_linkedin_github pyClass malformedUrlProfile (some "x") none
      "professional").2.2.1 (by decide) (by decide) (by decide),
   (pipeline_ignores_linkedin_github pyClass malformedUrlProfile (some "x") none
      "professional").2.2.2 "XXMALFORMEDURLXX" (by decide) (by decide)⟩
